import Mathlib

/-!
Shallow embedding of the computational core of `main.py`: a dashboard that
loads a per-state cancer-statistics table, geocodes state names, enriches
GeoJSON boundary features with per-state statistics, and computes the
aggregations feeding a pie chart (`create_pie_chart`) and a grouped bar
chart (`create_nested_bars`).

Modelling conventions:
* A pandas row becomes a `StateRecord`; the loaded DataFrame `data` becomes a
  `List StateRecord`.  Statistic columns are modelled as integer-valued
  (`ℤ`), matching the count/rate data the program consumes; arithmetic is
  exact (no floating point rounding is modelled).
* Python `int(x)` on an exact quotient `a / b` of integers truncates toward
  zero, which is `Int.tdiv a b`.
* pandas element-wise division of an integer series by 0 yields special
  float values instead of raising: `0 / 0` is NaN, `c / 0` is ±infinity for
  `c ≠ 0`.  Pie angles are therefore `PieAngle` values: `.ofPi q` stands for
  the real number `q * π` (the code multiplies the count share by `2 * pi`),
  and `.nan`, `.posInf`, `.negInf` are the special floats.
* Code that raises a Python exception is embedded in `Except String`.
-/

instance {ε α : Type} [DecidableEq ε] [DecidableEq α] : DecidableEq (Except ε α) := fun x y =>
  match x, y with
  | .ok a, .ok b =>
      if h : a = b then .isTrue (by rw [h]) else .isFalse (by simp [h])
  | .error e, .error f =>
      if h : e = f then .isTrue (by rw [h]) else .isFalse (by simp [h])
  | .ok _, .error _ => .isFalse (by simp)
  | .error _, .ok _ => .isFalse (by simp)

/-- One row of the loaded table (`data = pd.read_csv(file_path)`), with the
columns the aggregators read.  Field order follows the column list in §6 of
the design: `State`, `Total.Number`, `Total.Population`, the four
`Rates.Age.*` columns, the three `Types.*.Total` columns, and the ten
`Rates.Race and Sex.{Gender}.{Race}` columns. -/
structure StateRecord where
  state : String
  totalNumber : ℤ := 0
  totalPopulation : ℤ := 0
  rateAgeUnder18 : ℤ := 0
  rateAge18To45 : ℤ := 0
  rateAge45To64 : ℤ := 0
  rateAgeOver64 : ℤ := 0
  typesBreastTotal : ℤ := 0
  typesColorectalTotal : ℤ := 0
  typesLungTotal : ℤ := 0
  rateFemaleWhite : ℤ := 0
  rateFemaleHispanic : ℤ := 0
  rateFemaleAsian : ℤ := 0
  rateFemaleBlack : ℤ := 0
  rateFemaleIndigenous : ℤ := 0
  rateMaleWhite : ℤ := 0
  rateMaleHispanic : ℤ := 0
  rateMaleAsian : ℤ := 0
  rateMaleBlack : ℤ := 0
  rateMaleIndigenous : ℤ := 0
deriving DecidableEq, Repr

/-- Column lookup `df[f'Rates.Race and Sex.{gender}.{race}']` for one row:
the formatted column name selects one of the ten race-and-sex rate columns.
Any other (gender, race) pair would be a missing column (`KeyError`); the
loops below only ever use the ten fixed pairs, so the default `0` branch is
never exercised by the program. -/
def StateRecord.rateFor (r : StateRecord) (gender race : String) : ℤ :=
  if gender = "Female" then
    if race = "White" then r.rateFemaleWhite
    else if race = "Hispanic" then r.rateFemaleHispanic
    else if race = "Asian" then r.rateFemaleAsian
    else if race = "Black" then r.rateFemaleBlack
    else if race = "Indigenous" then r.rateFemaleIndigenous
    else 0
  else if gender = "Male" then
    if race = "White" then r.rateMaleWhite
    else if race = "Hispanic" then r.rateMaleHispanic
    else if race = "Asian" then r.rateMaleAsian
    else if race = "Black" then r.rateMaleBlack
    else if race = "Indigenous" then r.rateMaleIndigenous
    else 0
  else 0

/-- The selection filter both aggregators start with:
`df = data.copy()`; `if selected_state != 'All': df = df[df['State'] == selected_state]`.
On `"All"` the copy is returned whole; otherwise only the rows whose
`State` equals the selection survive. -/
def filterTable (t : List StateRecord) (selected_state : String) : List StateRecord :=
  if selected_state ≠ "All" then t.filter (fun r => r.state == selected_state) else t

/-- `num_states = len(df['State'].unique())`: the number of distinct values
in the `State` column. -/
def numStates (t : List StateRecord) : ℕ :=
  ((t.map (fun r => r.state)).dedup).length

/-- Python `int(q)` on an exact rational: truncation toward zero. -/
def pyInt (q : ℚ) : ℤ :=
  if 0 ≤ q then ⌊q⌋ else ⌈q⌉

/-- A pandas float cell produced by the angle computation.  `ofPi q` denotes
the real number `q * π`; `nan`, `posInf` and `negInf` are the IEEE special
values pandas produces when dividing by a zero total. -/
inductive PieAngle where
  | nan : PieAngle
  | posInf : PieAngle
  | negInf : PieAngle
  | ofPi : ℚ → PieAngle
deriving DecidableEq, Repr

/-- One element of `data_for_pie['angle'] = data_for_pie['counts'] / data_for_pie['counts'].sum() * 2 * pi`:
for total ≠ 0 the angle is `(c / total * 2) · π`, written as the exact
integer quotient `Rat.divInt (c * 2) total` (equal to `(c : ℚ) / total * 2`
by `Rat.divInt_eq_div`); for total = 0 pandas produces NaN (from `0 / 0`)
or ±infinity (from `c / 0`, `c ≠ 0`). -/
def pieAngle (total c : ℤ) : PieAngle :=
  if total = 0 then
    if c = 0 then .nan else if 0 < c then .posInf else .negInf
  else
    .ofPi (Rat.divInt (c * 2) total)

/-- One row of `data_for_pie`: friendly cancer-type name, integer count,
angle, and palette color. -/
structure PieRecord where
  cancer_type : String
  count : ℤ
  angle : PieAngle
  color : String
deriving DecidableEq, Repr

/-- The three sums `df[typ].sum()` for the keys of `type_to_name`, in
dictionary insertion order: breast, colorectal, lung. -/
def pieSums (df : List StateRecord) : List ℤ :=
  [(df.map (fun r => r.typesBreastTotal)).sum,
   (df.map (fun r => r.typesColorectalTotal)).sum,
   (df.map (fun r => r.typesLungTotal)).sum]

/-- The `counts` list of `create_pie_chart` after the if/else on lines
134-139.  On `"All"` each sum is `int(df[typ].sum() / num_states)` —
`Int.tdiv` embeds `int()` applied to the exact quotient; with zero distinct
states that expression raises in Python (division by zero / NaN conversion),
embedded as `.error`.  Otherwise the counts are `int(df[typ].sum())`, the
raw integer sums. -/
def pieCountsE (t : List StateRecord) (selected_state : String) : Except String (List ℤ) :=
  let df := filterTable t selected_state
  if selected_state = "All" then
    let num_states := numStates df
    if num_states = 0 then
      .error "conversion of NaN from zero-state average raises"
    else
      .ok ((pieSums df).map (fun s => Int.tdiv s (num_states : ℤ)))
  else
    .ok ((pieSums df).map (fun s => s))

/-- Friendly names, i.e. the values of `type_to_name` in key order. -/
def cancer_types : List String :=
  ["Breast Cancer", "Colorectal Cancer", "Lung Cancer"]

/-- `type_palette = ['#FAD5A5', '#7E0202', '#A36A00']`. -/
def type_palette : List String :=
  ["#FAD5A5", "#7E0202", "#A36A00"]

/-- Assembly of `data_for_pie`: one record per cancer type carrying its
count, its angle (normalised by the total count) and its palette color. -/
def pieRecords (counts : List ℤ) : List PieRecord :=
  let total := counts.sum
  (List.zip cancer_types (List.zip counts type_palette)).map
    (fun x => { cancer_type := x.1, count := x.2.1,
                angle := pieAngle total x.2.1, color := x.2.2 })

/-- `create_pie_chart(selected_state)`, restricted to the data it feeds the
figure: filter, per-type counts (with the `"All"` per-state averaging),
angles, colors. -/
def create_pie_chart (t : List StateRecord) (selected_state : String) :
    Except String (List PieRecord) :=
  (pieCountsE t selected_state).map pieRecords

/-- `races = ['White', 'Hispanic', 'Asian', 'Black', 'Indigenous']`. -/
def races : List String := ["White", "Hispanic", "Asian", "Black", "Indigenous"]

/-- `genders = ['Female', 'Male']`. -/
def genders : List String := ["Female", "Male"]

/-- The `female_palette` dict; lookup by race key.  The dict has exactly the
five race keys, so the final branch returning the `'Black'` entry covers the
last key. -/
def female_palette (race : String) : String :=
  if race = "Hispanic" then "#B30000"
  else if race = "White" then "#7E0202"
  else if race = "Indigenous" then "#ffbfbf"
  else if race = "Asian" then "#DA7070"
  else "#ce8686"

/-- The `male_palette` dict; lookup by race key. -/
def male_palette (race : String) : String :=
  if race = "Hispanic" then "#D18700"
  else if race = "White" then "#754C00"
  else if race = "Indigenous" then "#FFE5B4"
  else if race = "Asian" then "#FFB52E"
  else "#A36A00"

/-- One element of the `rows` list built by `create_nested_bars`: the dict
`{'Gender': ..., 'Race': ..., 'Count': ..., 'Color': ...}`.  `Count` is a
rational because on `"All"` the code divides the integer sum by the state
count without truncation (`count /= num_states`). -/
structure BarRecord where
  gender : String
  race : String
  count : ℚ
  color : String
deriving DecidableEq, Repr

/-- `create_nested_bars(selected_state)`, restricted to the `rows` data it
feeds the figure.  For every race (outer loop) and gender (inner loop) it
sums the formatted rate column over the filtered rows; on `"All"` with a
positive state count the sum is divided exactly (`count /= num_states`,
embedded as `Rat.divInt s num_states = (s : ℚ) / num_states`); the color
comes from the gender's palette. -/
def create_nested_bars (t : List StateRecord) (selected_state : String) : List BarRecord :=
  let df := filterTable t selected_state
  let num_states := numStates t
  races.flatMap (fun race => genders.map (fun gender =>
    let s := (df.map (fun r => r.rateFor gender race)).sum
    let count : ℚ :=
      if selected_state = "All" ∧ 0 < num_states then Rat.divInt s (num_states : ℤ)
      else (s : ℚ)
    { gender := gender, race := race, count := count,
      color := if gender = "Male" then male_palette race else female_palette race }))

/-- One GeoJSON boundary feature's properties bag: the `name` key it starts
with, and the six statistic keys the enrichment loop writes
(`Total.Number`, `Total.Population` and the four `age_columns`). `none`
means the key is absent (before enrichment). -/
structure GeoFeature where
  name : String
  totalNumber : Option ℤ := none
  totalPopulation : Option ℤ := none
  rateAgeUnder18 : Option ℤ := none
  rateAge18To45 : Option ℤ := none
  rateAge45To64 : Option ℤ := none
  rateAgeOver64 : Option ℤ := none
deriving DecidableEq, Repr

/-- One iteration of the enrichment loop over `states_geojson['features']`:
`state_data = data[data['State'] == state_name].iloc[0] if not ... .empty else None`
takes the first row whose `State` equals the feature name (case-sensitive
string equality), then the six statistic keys are written from that row, or
all set to `0` when no row matches.  The `col in state_data` guard on the
age columns always holds here because the table carries all four columns. -/
def enrichFeature (t : List StateRecord) (f : GeoFeature) : GeoFeature :=
  match (t.filter (fun r => r.state == f.name)).head? with
  | some state_data =>
      { f with totalNumber := some state_data.totalNumber,
               totalPopulation := some state_data.totalPopulation,
               rateAgeUnder18 := some state_data.rateAgeUnder18,
               rateAge18To45 := some state_data.rateAge18To45,
               rateAge45To64 := some state_data.rateAge45To64,
               rateAgeOver64 := some state_data.rateAgeOver64 }
  | none =>
      { f with totalNumber := some 0,
               totalPopulation := some 0,
               rateAgeUnder18 := some 0,
               rateAge18To45 := some 0,
               rateAge45To64 := some 0,
               rateAgeOver64 := some 0 }

/-- The whole enrichment pass: the loop body applied to every feature. -/
def enrich (t : List StateRecord) (fs : List GeoFeature) : List GeoFeature :=
  fs.map (enrichFeature t)

/-- `geocode_state(state_name)`: the call into the geocoding library is
modelled as an oracle `g` returning either a coordinate pair or a raised
exception (`Except.error`).  The `try/except Exception` wrapper converts any
raised exception into the `(None, None)` sentinel. -/
def geocode_state (g : String → Except String (ℚ × ℚ)) (state_name : String) :
    Option ℚ × Option ℚ :=
  match g state_name with
  | .ok location => (some location.1, some location.2)
  | .error _ => (none, none)

/-- `data['State'].apply(lambda x: geocode_state(x))`: the adapter applied
to every state name in turn. -/
def geocodeAll (g : String → Except String (ℚ × ℚ)) (names : List String) :
    List (Option ℚ × Option ℚ) :=
  names.map (fun x => geocode_state g x)

/-- `create_pie_chart` with the module-global `data` threaded explicitly:
the first line `df = data.copy()` duplicates the table, every later
statement rebinds or mutates only the copy (`df`, `data_for_pie`), so the
global returned as the second component is the one the function started
with. -/
def create_pie_chart_run (data : List StateRecord) (selected_state : String) :
    Except String (List PieRecord) × List StateRecord :=
  let df := data
  (create_pie_chart df selected_state, data)

/-- `create_nested_bars` with the module-global `data` threaded explicitly;
as in `create_pie_chart_run`, only the copy `df` (later rebound to
`pd.DataFrame(rows)`) is written to. -/
def create_nested_bars_run (data : List StateRecord) (selected_state : String) :
    List BarRecord × List StateRecord :=
  let df := data
  (create_nested_bars df selected_state, data)

/-- A one-state table with nonzero cancer-type totals. -/
def tableAlpha : List StateRecord :=
  [{ state := "Alpha", typesBreastTotal := 30, typesColorectalTotal := 10,
     typesLungTotal := 10 }]

/-- A one-state table whose cancer-type totals are all zero, so the pie
total count is zero. -/
def tableZed : List StateRecord :=
  [{ state := "Zed" }]

/-- A two-state table realising the spec example: cancer-type totals
[30, 10, 10] spread over two distinct states. -/
def tablePair : List StateRecord :=
  [{ state := "Alpha", typesBreastTotal := 20, typesColorectalTotal := 5,
     typesLungTotal := 6 },
   { state := "Beta", typesBreastTotal := 10, typesColorectalTotal := 5,
     typesLungTotal := 4 }]

/-- A table containing a state literally named `"All"` alongside another
state, exhibiting the collision with the `"All"` sentinel. -/
def tableShadow : List StateRecord :=
  [{ state := "All", totalNumber := 1 },
   { state := "Beta", totalNumber := 2 }]

/-- The enrichment example table: Alpha with deaths 100 / population 1000,
Beta with deaths 50 / population 500. -/
def tableAB : List StateRecord :=
  [{ state := "Alpha", totalNumber := 100, totalPopulation := 1000 },
   { state := "Beta", totalNumber := 50, totalPopulation := 500 }]

/-- The first row of `tableAB`. -/
def rowAlpha : StateRecord :=
  { state := "Alpha", totalNumber := 100, totalPopulation := 1000 }

/-- An unenriched boundary feature named Alpha. -/
def featAlpha : GeoFeature := { name := "Alpha" }

/-- An unenriched boundary feature named Gamma, matching no table row. -/
def featGamma : GeoFeature := { name := "Gamma" }

/-- A two-state table whose Female/White rates sum to 3, which 2 does not
divide, separating exact division from truncating division. -/
def tableOdd : List StateRecord :=
  [{ state := "Alpha", rateFemaleWhite := 1 },
   { state := "Beta", rateFemaleWhite := 2 }]

/-- A geocoding oracle that succeeds on `"Ohio"` and raises on anything
else. -/
def geoOracle : String → Except String (ℚ × ℚ) := fun state_name =>
  if state_name = "Ohio" then .ok (40, -82) else .error "geocoder failure"

/-! ## Helper lemmas -/

theorem head?_filter_eq_find? {α : Type} (p : α → Bool) (l : List α) :
    (l.filter p).head? = l.find? p := by
  induction l with
  | nil => rfl
  | cons a as ih =>
      by_cases h : p a
      · simp [List.filter_cons, h, List.find?_cons_of_pos]
      · simp [List.filter_cons, h, List.find?_cons_of_neg, ih]

theorem sum_map_divInt_mul (l : List ℤ) (t : ℤ) :
    (l.map (fun c => Rat.divInt (c * 2) t)).sum = Rat.divInt (l.sum * 2) t := by
  induction l with
  | nil => simp
  | cons a as ih =>
      rw [List.map_cons, List.sum_cons, List.sum_cons, ih]
      simp only [Rat.divInt_eq_div]
      push_cast
      rw [div_add_div_same]
      ring_nf

theorem divInt_self_mul_two (t : ℤ) (h : t ≠ 0) : Rat.divInt (t * 2) t = 2 := by
  rw [Rat.divInt_eq_div]
  have ht : (t : ℚ) ≠ 0 := Int.cast_ne_zero.mpr h
  push_cast
  field_simp

theorem numStates_pos (t : List StateRecord) (h : t ≠ []) : 0 < numStates t := by
  unfold numStates
  rcases t with _ | ⟨r, rs⟩
  · exact absurd rfl h
  · have : r.state ∈ ((r :: rs).map (fun s => s.state)).dedup := by
      simp [List.mem_dedup]
    exact List.length_pos.mpr (List.ne_nil_of_mem this)

theorem enrichFeature_name (t : List StateRecord) (f : GeoFeature) :
    (enrichFeature t f).name = f.name := by
  unfold enrichFeature
  cases (t.filter (fun r => r.state == f.name)).head? <;> rfl

theorem enrichFeature_idem (t : List StateRecord) (f : GeoFeature) :
    enrichFeature t (enrichFeature t f) = enrichFeature t f := by
  cases h : (t.filter (fun r => r.state == f.name)).head? with
  | some r => simp only [enrichFeature, h]
  | none => simp only [enrichFeature, h]

/-! ## Claim theorems -/

/-- C8: enrichment is idempotent — running the enrichment pass twice on the
same (table, features) pair yields the same feature properties as running
it once. -/
theorem enrich_idempotent (t : List StateRecord) (fs : List GeoFeature) :
    enrich t (enrich t fs) = enrich t fs := by
  unfold enrich
  rw [List.map_map]
  exact List.map_congr_left (fun f _ => enrichFeature_idem t f)

/-- C9: the geocoder adapter never propagates an internal exception: an
oracle failure on a state name yields the `(None, None)` sentinel, and the
per-row application processes every element of the state column regardless
of failures. -/
theorem geocode_state_no_raise (g : String → Except String (ℚ × ℚ))
    (names : List String) (state_name e : String)
    (h : g state_name = .error e) :
    geocode_state g state_name = (none, none) ∧
    ∀ i : ℕ, (geocodeAll g names)[i]? = (names[i]?).map (geocode_state g) := by
  constructor
  · simp [geocode_state, h]
  · intro i
    simp [geocodeAll]

/-- Witness for C9: a concrete oracle raising on `"Atlantis"` yields the
sentinel there while the second list element is still processed. -/
theorem geocode_state_no_raise_witness :
    geocode_state geoOracle "Atlantis" = (none, none) ∧
    (geocodeAll geoOracle ["Ohio", "Atlantis"])[1]? =
      ((["Ohio", "Atlantis"] : List String)[1]?).map (geocode_state geoOracle) := by
  have h := geocode_state_no_raise geoOracle ["Ohio", "Atlantis"] "Atlantis"
    "geocoder failure" (by decide)
  exact ⟨h.1, h.2 1⟩

/-- C10: both aggregators operate on a copy of the loaded table; with the
module global threaded explicitly, the table after either aggregation is
the table before, and the results are those of the pure aggregators. -/
theorem aggregators_leave_table (t : List StateRecord) (sel : String) :
    (create_pie_chart_run t sel).2 = t ∧ (create_nested_bars_run t sel).2 = t ∧
    (create_pie_chart_run t sel).1 = create_pie_chart t sel ∧
    (create_nested_bars_run t sel).1 = create_nested_bars t sel :=
  ⟨rfl, rfl, rfl, rfl⟩

/-- C2 (code bug): on a selection with no matching rows the pie aggregator
produces NaN angles (pandas `0 / 0`), not zero-valued angles, and on
selection `"All"` over a table with zero distinct states it raises; the bar
aggregator, by contrast, yields all-zero counts for the empty selection. -/
theorem pie_chart_nan_and_raise :
    create_pie_chart tableAlpha "Gamma" =
      .ok [{ cancer_type := "Breast Cancer", count := 0, angle := .nan, color := "#FAD5A5" },
           { cancer_type := "Colorectal Cancer", count := 0, angle := .nan, color := "#7E0202" },
           { cancer_type := "Lung Cancer", count := 0, angle := .nan, color := "#A36A00" }] ∧
    create_pie_chart ([] : List StateRecord) "All" =
      .error "conversion of NaN from zero-state average raises" ∧
    (create_nested_bars tableAlpha "Gamma").all (fun r => decide (r.count = 0)) = true := by
  decide

/-- C5: for every table and selection the bar aggregator returns exactly 10
records, one per (gender, race) pair with no duplicate pair, each colored
from the palette selected by its gender. -/
theorem nested_bars_ten_records (t : List StateRecord) (sel : String) :
    (create_nested_bars t sel).map (fun r => (r.gender, r.race, r.color)) =
      [("Female", "White", "#7E0202"), ("Male", "White", "#754C00"),
       ("Female", "Hispanic", "#B30000"), ("Male", "Hispanic", "#D18700"),
       ("Female", "Asian", "#DA7070"), ("Male", "Asian", "#FFB52E"),
       ("Female", "Black", "#ce8686"), ("Male", "Black", "#A36A00"),
       ("Female", "Indigenous", "#ffbfbf"), ("Male", "Indigenous", "#FFE5B4")] ∧
    (create_nested_bars t sel).length = 10 ∧
    ((create_nested_bars t sel).map (fun r => (r.gender, r.race))).Nodup := by
  refine ⟨?_, ?_, ?_⟩
  · simp [create_nested_bars, races, genders, female_palette, male_palette]
  · simp [create_nested_bars, races, genders]
  · have h : ((create_nested_bars t sel).map (fun r => (r.gender, r.race))) =
      [("Female", "White"), ("Male", "White"), ("Female", "Hispanic"),
       ("Male", "Hispanic"), ("Female", "Asian"), ("Male", "Asian"),
       ("Female", "Black"), ("Male", "Black"), ("Female", "Indigenous"),
       ("Male", "Indigenous")] := by
      simp [create_nested_bars, races, genders]
    rw [h]
    decide

/-- C7 counterexample: in a table containing a state literally named
`"All"`, the name `"All"` is present in the table, yet the filter on
`"All"` does not return exactly the rows whose state equals `"All"` — the
sentinel takes precedence and every row is returned. -/
theorem filter_all_shadow :
    ("All" ∈ tableShadow.map (fun r => r.state)) ∧
    filterTable tableShadow "All" ≠ tableShadow.filter (fun r => r.state == "All") := by
  decide

/-- C7 amended: the filter on `"All"` returns every row, and for any
selection other than the `"All"` sentinel it returns exactly the rows whose
state equals the selection (every returned row matches, and the count of
returned rows is the count of matching rows). -/
theorem filter_rows_spec (t : List StateRecord) (sel : String) (h : sel ≠ "All") :
    filterTable t "All" = t ∧
    filterTable t sel = t.filter (fun r => r.state == sel) ∧
    (filterTable t sel).length = t.countP (fun r => r.state == sel) ∧
    (filterTable t sel).all (fun r => r.state == sel) = true := by
  refine ⟨by simp [filterTable], by simp [filterTable, h], ?_, ?_⟩
  · simp [filterTable, h, List.countP_eq_length_filter]
  · simp only [filterTable, if_pos h, List.all_eq_true]
    intro r hr
    exact (List.mem_filter.mp hr).2

/-- Witness for C7: the amended filter facts at a concrete two-state table
and the selection `"Beta"`. -/
theorem filter_rows_spec_witness :
    filterTable tableAB "All" = tableAB ∧
    filterTable tableAB "Beta" = tableAB.filter (fun r => r.state == "Beta") ∧
    (filterTable tableAB "Beta").length = tableAB.countP (fun r => r.state == "Beta") ∧
    (filterTable tableAB "Beta").all (fun r => r.state == "Beta") = true :=
  filter_rows_spec tableAB "Beta" (by decide)

theorem mem_of_mem_filterTable (t : List StateRecord) (sel : String) (r : StateRecord)
    (h : r ∈ filterTable t sel) : r ∈ t := by
  unfold filterTable at h
  split at h
  · exact (List.mem_filter.mp h).1
  · exact h

theorem pieCountsE_all (t : List StateRecord) (h : numStates t ≠ 0) :
    pieCountsE t "All" =
      .ok ((pieSums t).map (fun s => Int.tdiv s (numStates t : ℤ))) := by
  simp [pieCountsE, filterTable, h]

theorem pieCountsE_state (t : List StateRecord) (sel : String) (h : sel ≠ "All") :
    pieCountsE t sel = .ok (pieSums (filterTable t sel)) := by
  simp [pieCountsE, h]

theorem pieSums_nonneg (df : List StateRecord)
    (h : ∀ r ∈ df, 0 ≤ r.typesBreastTotal ∧ 0 ≤ r.typesColorectalTotal ∧
      0 ≤ r.typesLungTotal) :
    ∀ s ∈ pieSums df, 0 ≤ s := by
  intro s hs
  simp only [pieSums, List.mem_cons, List.not_mem_nil, or_false] at hs
  rcases hs with rfl | rfl | rfl
  · refine List.sum_nonneg ?_
    intro x hx
    obtain ⟨r, hr, rfl⟩ := List.mem_map.mp hx
    exact (h r hr).1
  · refine List.sum_nonneg ?_
    intro x hx
    obtain ⟨r, hr, rfl⟩ := List.mem_map.mp hx
    exact (h r hr).2.1
  · refine List.sum_nonneg ?_
    intro x hx
    obtain ⟨r, hr, rfl⟩ := List.mem_map.mp hx
    exact (h r hr).2.2

theorem pieRecords_three (c1 c2 c3 : ℤ) :
    pieRecords [c1, c2, c3] =
      [{ cancer_type := "Breast Cancer", count := c1,
         angle := pieAngle ([c1, c2, c3].sum) c1, color := "#FAD5A5" },
       { cancer_type := "Colorectal Cancer", count := c2,
         angle := pieAngle ([c1, c2, c3].sum) c2, color := "#7E0202" },
       { cancer_type := "Lung Cancer", count := c3,
         angle := pieAngle ([c1, c2, c3].sum) c3, color := "#A36A00" }] := rfl

/-- C1 (amended): for every valid selection over a nonempty table of
nonnegative cancer-type totals, the pie aggregator returns exactly 3
records; when the total count is nonzero the angles are rational multiples
of π whose coefficients sum to exactly 2 (the angles sum to exactly 2π,
hence within any tolerance); when the total count is zero every angle is
NaN — not 0. -/
theorem pie_chart_three_records (t : List StateRecord) (sel : String)
    (hval : sel = "All" ∨ sel ∈ t.map (fun r => r.state))
    (hne : t ≠ [])
    (hnn : ∀ r ∈ t, 0 ≤ r.typesBreastTotal ∧ 0 ≤ r.typesColorectalTotal ∧
      0 ≤ r.typesLungTotal) :
    ∃ recs : List PieRecord, create_pie_chart t sel = .ok recs ∧ recs.length = 3 ∧
      ((recs.map (fun p => p.count)).sum ≠ 0 →
        ∃ qs : List ℚ, recs.map (fun p => p.angle) = qs.map PieAngle.ofPi ∧
          qs.sum = 2) ∧
      ((recs.map (fun p => p.count)).sum = 0 →
        recs.map (fun p => p.angle) = [.nan, .nan, .nan]) := by
  obtain ⟨counts, hok, hlen3, hpos⟩ :
      ∃ counts, pieCountsE t sel = .ok counts ∧ counts.length = 3 ∧
        ∀ c ∈ counts, 0 ≤ c := by
    by_cases hs : sel = "All"
    · subst hs
      have hn : numStates t ≠ 0 := (numStates_pos t hne).ne'
      refine ⟨_, pieCountsE_all t hn, by simp [pieSums], ?_⟩
      intro c hc
      obtain ⟨s, hs', rfl⟩ := List.mem_map.mp hc
      exact Int.tdiv_nonneg (pieSums_nonneg t hnn s hs') (by positivity)
    · refine ⟨_, pieCountsE_state t sel hs, by simp [pieSums], ?_⟩
      intro c hc
      exact pieSums_nonneg (filterTable t sel)
        (fun r hr => hnn r (mem_of_mem_filterTable t sel r hr)) c hc
  obtain ⟨c1, c2, c3, rfl⟩ := List.length_eq_three.mp hlen3
  have hrecs : create_pie_chart t sel = .ok (pieRecords [c1, c2, c3]) := by
    unfold create_pie_chart
    rw [hok]
    rfl
  refine ⟨pieRecords [c1, c2, c3], hrecs, by rw [pieRecords_three]; rfl, ?_, ?_⟩
  · intro hT
    rw [pieRecords_three] at hT ⊢
    simp only [List.map_cons, List.map_nil] at hT ⊢
    have hT' : [c1, c2, c3].sum ≠ 0 := by
      simpa using hT
    refine ⟨[Rat.divInt (c1 * 2) ([c1, c2, c3].sum),
             Rat.divInt (c2 * 2) ([c1, c2, c3].sum),
             Rat.divInt (c3 * 2) ([c1, c2, c3].sum)], ?_, ?_⟩
    · have e : ∀ c : ℤ, pieAngle ([c1, c2, c3].sum) c =
          .ofPi (Rat.divInt (c * 2) ([c1, c2, c3].sum)) := by
        intro c
        unfold pieAngle
        rw [if_neg hT']
      rw [e c1, e c2, e c3]
      rfl
    · have := sum_map_divInt_mul [c1, c2, c3] ([c1, c2, c3].sum)
      simp only [List.map_cons, List.map_nil] at this
      rw [this]
      exact divInt_self_mul_two _ hT'
  · intro hT
    rw [pieRecords_three] at hT ⊢
    simp only [List.map_cons, List.map_nil] at hT ⊢
    have h1 : 0 ≤ c1 := hpos c1 (by simp)
    have h2 : 0 ≤ c2 := hpos c2 (by simp)
    have h3 : 0 ≤ c3 := hpos c3 (by simp)
    have hsum : [c1, c2, c3].sum = 0 := by simpa using hT
    have hz : c1 = 0 ∧ c2 = 0 ∧ c3 = 0 := by
      simp only [List.sum_cons, List.sum_nil] at hsum
      omega
    obtain ⟨rfl, rfl, rfl⟩ := hz
    simp [pieAngle]

/-- Witness for C1: the amended statement at the one-state table with
nonzero totals and the valid selection `"Alpha"`. -/
theorem pie_chart_three_records_witness :
    ∃ recs : List PieRecord, create_pie_chart tableAlpha "Alpha" = .ok recs ∧
      recs.length = 3 ∧
      ((recs.map (fun p => p.count)).sum ≠ 0 →
        ∃ qs : List ℚ, recs.map (fun p => p.angle) = qs.map PieAngle.ofPi ∧
          qs.sum = 2) ∧
      ((recs.map (fun p => p.count)).sum = 0 →
        recs.map (fun p => p.angle) = [.nan, .nan, .nan]) :=
  pie_chart_three_records tableAlpha "Alpha" (by decide) (by decide) (by decide)

/-- C1 counterexample: a valid selection whose three cancer-type totals are
all zero yields NaN angles, not zero angles — refuting the claim that a
zero total count gives all-zero angles. -/
theorem pie_chart_zero_total_nan :
    create_pie_chart tableZed "Zed" =
      .ok [{ cancer_type := "Breast Cancer", count := 0, angle := .nan,
             color := "#FAD5A5" },
           { cancer_type := "Colorectal Cancer", count := 0, angle := .nan,
             color := "#7E0202" },
           { cancer_type := "Lung Cancer", count := 0, angle := .nan,
             color := "#A36A00" }] ∧
    PieAngle.nan ≠ PieAngle.ofPi 0 := by
  decide

/-- C3 (amended): on selection `"All"` each cancer-type sum is divided by
the distinct-state count with truncating integer division, and on a
specific state the counts are the raw sums; for totals [30, 10, 10] over 2
distinct states the counts are [15, 5, 5] — but the angles are
[6π/5, 2π/5, 2π/5] (coefficients of π shown), not [π, π/3, π/3]. -/
theorem pie_all_averaging (t : List StateRecord) (sel : String) :
    (sel = "All" → numStates t ≠ 0 →
      pieCountsE t sel =
        .ok ((pieSums t).map (fun s => Int.tdiv s (numStates t : ℤ)))) ∧
    (sel ≠ "All" → pieCountsE t sel = .ok (pieSums (filterTable t sel))) ∧
    create_pie_chart tablePair "All" =
      .ok [{ cancer_type := "Breast Cancer", count := 15,
             angle := .ofPi (Rat.divInt 6 5), color := "#FAD5A5" },
           { cancer_type := "Colorectal Cancer", count := 5,
             angle := .ofPi (Rat.divInt 2 5), color := "#7E0202" },
           { cancer_type := "Lung Cancer", count := 5,
             angle := .ofPi (Rat.divInt 2 5), color := "#A36A00" }] := by
  refine ⟨?_, ?_, by decide⟩
  · intro hs hn
    subst hs
    exact pieCountsE_all t hn
  · intro hs
    exact pieCountsE_state t sel hs

/-- Witness for C3: the `"All"` averaging and the specific-state raw sums
at the two-state example table. -/
theorem pie_all_averaging_witness :
    pieCountsE tablePair "All" =
      .ok ((pieSums tablePair).map (fun s => Int.tdiv s (numStates tablePair : ℤ))) ∧
    pieCountsE tablePair "Beta" = .ok (pieSums (filterTable tablePair "Beta")) :=
  ⟨(pie_all_averaging tablePair "All").1 rfl (by decide),
   (pie_all_averaging tablePair "Beta").2.1 (by decide)⟩

/-- C3 counterexample: at cancer-type totals [30, 10, 10] under `"All"`
with 2 distinct states the code's angles are [6π/5, 2π/5, 2π/5]; the first
angle is not π, refuting the claimed angles [π, π/3, π/3]. -/
theorem pie_example_angle_not_pi :
    (create_pie_chart tablePair "All").toOption.map
        (fun rs => rs.map (fun p => p.angle)) =
      some [.ofPi (Rat.divInt 6 5), .ofPi (Rat.divInt 2 5),
            .ofPi (Rat.divInt 2 5)] ∧
    PieAngle.ofPi (Rat.divInt 6 5) ≠ PieAngle.ofPi 1 := by
  decide

/-- C4: enrichment looks up the first table row whose state equals the
feature name by exact string match; on a hit the six statistic properties
are copied from that row, on a miss they are all set to zero, and the
feature's name is preserved; a matching head row wins regardless of later
duplicates. -/
theorem enrich_feature_lookup (t : List StateRecord) (f : GeoFeature) :
    (enrichFeature t f).name = f.name ∧
    (∀ r : StateRecord, t.find? (fun s => s.state == f.name) = some r →
      enrichFeature t f =
        { f with totalNumber := some r.totalNumber,
                 totalPopulation := some r.totalPopulation,
                 rateAgeUnder18 := some r.rateAgeUnder18,
                 rateAge18To45 := some r.rateAge18To45,
                 rateAge45To64 := some r.rateAge45To64,
                 rateAgeOver64 := some r.rateAgeOver64 }) ∧
    (t.find? (fun s => s.state == f.name) = none →
      enrichFeature t f =
        { f with totalNumber := some 0, totalPopulation := some 0,
                 rateAgeUnder18 := some 0, rateAge18To45 := some 0,
                 rateAge45To64 := some 0, rateAgeOver64 := some 0 }) ∧
    (∀ (r : StateRecord) (rest : List StateRecord), r.state = f.name →
      enrichFeature (r :: rest) f =
        { f with totalNumber := some r.totalNumber,
                 totalPopulation := some r.totalPopulation,
                 rateAgeUnder18 := some r.rateAgeUnder18,
                 rateAge18To45 := some r.rateAge18To45,
                 rateAge45To64 := some r.rateAge45To64,
                 rateAgeOver64 := some r.rateAgeOver64 }) := by
  refine ⟨enrichFeature_name t f, ?_, ?_, ?_⟩
  · intro r hr
    unfold enrichFeature
    rw [head?_filter_eq_find?, hr]
  · intro hr
    unfold enrichFeature
    rw [head?_filter_eq_find?, hr]
  · intro r rest hr
    unfold enrichFeature
    rw [head?_filter_eq_find?, List.find?_cons_of_pos _ (by simp [hr])]

/-- Witness for C4: the Alpha/Beta/Gamma example — the matched feature
Alpha receives deaths 100 and population 1000, the unmatched feature Gamma
receives all-zero statistics. -/
theorem enrich_feature_lookup_witness :
    enrichFeature tableAB featAlpha =
      { featAlpha with totalNumber := some 100, totalPopulation := some 1000,
                       rateAgeUnder18 := some 0, rateAge18To45 := some 0,
                       rateAge45To64 := some 0, rateAgeOver64 := some 0 } ∧
    enrichFeature tableAB featGamma =
      { featGamma with totalNumber := some 0, totalPopulation := some 0,
                       rateAgeUnder18 := some 0, rateAge18To45 := some 0,
                       rateAge45To64 := some 0, rateAgeOver64 := some 0 } :=
  ⟨(enrich_feature_lookup tableAB featAlpha).2.1 rowAlpha (by decide),
   (enrich_feature_lookup tableAB featGamma).2.2.1 (by decide)⟩

theorem tdiv_cast_eq_divInt_iff (s n : ℤ) (hn : 0 < n) :
    ((Int.tdiv s n : ℤ) : ℚ) = Rat.divInt s n ↔ n ∣ s := by
  rw [Rat.divInt_eq_div]
  have hne : (n : ℚ) ≠ 0 := by
    exact_mod_cast hn.ne'
  constructor
  · intro h
    have hmul : ((Int.tdiv s n * n : ℤ) : ℚ) = (s : ℚ) := by
      push_cast
      rw [h]
      field_simp
    have he : Int.tdiv s n * n = s := by
      exact_mod_cast hmul
    exact ⟨Int.tdiv s n, by rw [Int.mul_comm]; exact he.symm⟩
  · rintro ⟨k, rfl⟩
    rw [Int.mul_tdiv_cancel_left _ hn.ne']
    push_cast
    field_simp

/-- C6 (amended): on selection `"All"` with a positive distinct-state
count, the bar aggregator divides each (gender, race) sum by the
distinct-state count exactly, without the pie aggregator's truncation; its
count agrees with the pie aggregator's truncating step `int(sum / n)` if
and only if the distinct-state count divides the sum. -/
theorem bars_all_division_exact (t : List StateRecord) (hn : 0 < numStates t) :
    ∀ r ∈ create_nested_bars t "All",
      r.count = Rat.divInt ((t.map (fun x => x.rateFor r.gender r.race)).sum)
        (numStates t : ℤ) ∧
      (((Int.tdiv ((t.map (fun x => x.rateFor r.gender r.race)).sum)
          (numStates t : ℤ) : ℤ) : ℚ) = r.count ↔
        ((numStates t : ℤ) ∣ (t.map (fun x => x.rateFor r.gender r.race)).sum)) := by
  intro r hr
  unfold create_nested_bars at hr
  simp only [List.mem_flatMap, List.mem_map] at hr
  obtain ⟨race, hrace, gender, hgender, rfl⟩ := hr
  have hdf : filterTable t "All" = t := by simp [filterTable]
  rw [hdf]
  have hzn : (0 : ℤ) < ((numStates t : ℕ) : ℤ) := by exact_mod_cast hn
  constructor
  · dsimp only
    rw [if_pos (And.intro trivial hn)]
  · dsimp only
    rw [if_pos (And.intro trivial hn)]
    exact tdiv_cast_eq_divInt_iff ((t.map (fun x => x.rateFor gender race)).sum)
      ((numStates t : ℕ) : ℤ) hzn

/-- Witness for C6: at a two-state table whose Female/White rates sum to 3,
the bar aggregator's `"All"` count is the exact quotient 3/2, and the
agreement-iff-divisibility equivalence holds there. -/
theorem bars_all_division_exact_witness :
    ({ gender := "Female", race := "White", count := Rat.divInt 3 2,
       color := "#7E0202" } : BarRecord).count =
      Rat.divInt ((tableOdd.map (fun x => x.rateFor "Female" "White")).sum)
        (numStates tableOdd : ℤ) ∧
    (((Int.tdiv ((tableOdd.map (fun x => x.rateFor "Female" "White")).sum)
        (numStates tableOdd : ℤ) : ℤ) : ℚ) =
      ({ gender := "Female", race := "White", count := Rat.divInt 3 2,
         color := "#7E0202" } : BarRecord).count ↔
      ((numStates tableOdd : ℤ) ∣
        (tableOdd.map (fun x => x.rateFor "Female" "White")).sum)) :=
  bars_all_division_exact tableOdd (by decide)
    { gender := "Female", race := "White", count := Rat.divInt 3 2,
      color := "#7E0202" } (by decide)

/-- C6 counterexample: for a Female/White sum of 3 over 2 distinct states,
the bar aggregator's `"All"` count is 3/2 while the pie aggregator's
truncating step yields 1 ≠ 3/2, so the two `"All"` averaging rules are not
the same. -/
theorem bars_all_truncation_differs :
    (create_nested_bars tableOdd "All").head? =
      some { gender := "Female", race := "White", count := Rat.divInt 3 2,
             color := "#7E0202" } ∧
    ((Int.tdiv 3 2 : ℤ) : ℚ) ≠ Rat.divInt 3 2 := by
  decide
